import Mathlib

/-!
Shallow embedding of the route-search core of the `goplaces` Go client
(`payloads.go` together with the shared types of `types.go` and the
validation constants of `client.go`), and proofs about it.

Go `float64` values are modelled as real numbers; Go `int` values as `Int`;
Go strings as Lean `String` (one `Char` per byte, exact for the ASCII data
these functions process).  Fallible Go functions returning `(T, error)` are
modelled with `Except GoError T` / `Option ValidationError`.
-/

open Classical

set_option maxRecDepth 4000

/-- `ValidationError{Field, Message}` as constructed throughout the client. -/
structure ValidationError where
  Field : String
  Message : String
deriving DecidableEq, Repr

/-- A Go `error` value in this code base: either a `ValidationError` or an
`errors.New` / wrapped error carrying a message string. -/
inductive GoError where
  | validation (e : ValidationError)
  | generic (msg : String)
deriving DecidableEq, Repr

/-- `LatLng` from `types.go`: geographic coordinates in degrees. -/
structure LatLng where
  Lat : ℝ
  Lng : ℝ

/-- `LocationBias` from `types.go`. -/
structure LocationBias where
  Lat : ℝ
  Lng : ℝ
  RadiusM : ℝ

/-- The fields of `PlaceSummary` (`types.go`) that the route core passes
through untouched; the remaining optional fields do not influence `Route`. -/
structure PlaceSummary where
  PlaceID : String
  Name : String

/-- The fields of `SearchRequest` (`types.go`) populated by `Route`. -/
structure SearchRequest where
  Query : String
  LocationBias : Option LocationBias
  Limit : Int
  Language : String
  Region : String

/-- `SearchResponse` restricted to the field `Route` consumes. -/
structure SearchResponse where
  Results : List PlaceSummary

/-- `RouteRequest` from `payloads.go`. -/
structure RouteRequest where
  Query : String
  From : String
  To : String
  Mode : String
  RadiusM : ℝ
  MaxWaypoints : Int
  Limit : Int
  Language : String
  Region : String

/-- `RouteWaypoint` from `payloads.go`. -/
structure RouteWaypoint where
  Location : LatLng
  Results : List PlaceSummary

/-- `RouteResponse` from `payloads.go`. -/
structure RouteResponse where
  Waypoints : List RouteWaypoint

/-! ### Constants (`payloads.go`, `client.go`) -/

def defaultRouteLimit : Int := 5

def defaultRouteRadiusM : ℝ := 1000

def defaultRouteWaypoints : Int := 5

def maxRouteWaypoints : Int := 20

def maxSearchLimit : Int := 20

def earthRadiusMeters : ℝ := 6371000

/-- The valid travel modes (`travelModes` map in `payloads.go`, as a list). -/
def travelModesList : List String :=
  ["DRIVE", "WALK", "BICYCLE", "TWO_WHEELER", "TRANSIT"]

/-! ### String helpers (`strings.TrimSpace`, `strings.ToUpper`) -/

/-- Go `unicode.IsSpace`: the white-space code points recognised by
`strings.TrimSpace`. -/
def goIsSpace (c : Char) : Bool :=
  c == ' ' || c == '\t' || c == '\n' || c.toNat == 11 || c.toNat == 12 ||
  c == '\r' || c.toNat == 0x85 || c.toNat == 0xA0 || c.toNat == 0x1680 ||
  (0x2000 ≤ c.toNat && c.toNat ≤ 0x200A) || c.toNat == 0x2028 ||
  c.toNat == 0x2029 || c.toNat == 0x202F || c.toNat == 0x205F ||
  c.toNat == 0x3000

/-- `strings.TrimSpace`: drop leading and trailing white space. -/
def trimSpace (s : String) : String :=
  String.mk (((s.data.dropWhile goIsSpace).reverse.dropWhile goIsSpace).reverse)

/-- `strings.ToUpper` restricted to ASCII letters (the only characters the
travel-mode comparison can match). -/
def goToUpper (s : String) : String :=
  String.mk (s.data.map Char.toUpper)

/-! ### Polyline decoding (`decodePolyline`, `payloads.go`)

The Go loop keeps integer accumulators (`var lat, lng int`) and converts to
`float64` only when appending a point, so the decoder is split into an
integer core (`readVarint`, `decodeLoop`) and a final scaling step. -/

/-- One inner `for` loop of `decodePolyline`: read a varint value.  Each
consumed byte contributes its low five bits (`b & 0x1f`, i.e. `b mod 32` in
two's complement) shifted left by the running shift; the loop stops at the
first byte whose continuation bit `0x20` is clear.  Returns the accumulated
value and the remaining input, or `none` if the input ends mid-varint. -/
def readVarint : List Char → Nat → Nat → Option (Nat × List Char)
  | [], _, _ => none
  | c :: rest, shift, acc =>
      let b : Int := (c.toNat : Int) - 63
      let acc2 : Nat := acc + (Int.emod b 32).toNat * 2 ^ shift
      if b < 0x20 then some (acc2, rest) else readVarint rest (shift + 5) acc2

/-- `(delta >> 1) ^ (-(delta & 1))`: undo the zig-zag sign encoding of a
decoded varint value. -/
def zigzagDecode (v : Nat) : Int :=
  if v % 2 = 1 then -(v / 2 : Int) - 1 else (v / 2 : Int)

/-- The outer `for` loop of `decodePolyline`: repeatedly read a latitude and
a longitude varint, apply the deltas to the running integer accumulators and
collect the scaled points (here still as integer microdegree pairs, most
recent first).  `fuel` bounds the recursion; every iteration consumes at
least two characters, so `fuel = cs.length` never runs out before `cs`. -/
def decodeLoop : Nat → List Char → Int → Int → List (Int × Int) →
    Option (List (Int × Int))
  | 0, cs, _, _, acc => match cs with
      | [] => some acc.reverse
      | _ :: _ => none
  | _ + 1, [], _, _, acc => some acc.reverse
  | fuel + 1, c :: cs, lat, lng, acc =>
      match readVarint (c :: cs) 0 0 with
      | none => none
      | some (v1, rest1) =>
        match readVarint rest1 0 0 with
        | none => none
        | some (v2, rest2) =>
          let lat2 := lat + zigzagDecode v1
          let lng2 := lng + zigzagDecode v2
          decodeLoop fuel rest2 lat2 lng2 ((lat2, lng2) :: acc)

/-- The error value `errors.New("goplaces: empty polyline")`. -/
def emptyPolylineError : GoError := .generic "goplaces: empty polyline"

/-- The error value `errors.New("goplaces: invalid polyline")`. -/
def invalidPolylineError : GoError := .generic "goplaces: invalid polyline"

/-- `decodePolyline` (`payloads.go`): reject blank input, then decode the
byte stream; each integer pair is divided by the precision factor `1e5` to
obtain degrees.  On any failure no points are returned. -/
noncomputable def decodePolyline (encoded : String) :
    Except GoError (List LatLng) :=
  if trimSpace encoded = "" then .error emptyPolylineError
  else
    match decodeLoop encoded.data.length encoded.data 0 0 [] with
    | none => .error invalidPolylineError
    | some pts =>
        .ok (pts.map fun p => ⟨(p.1 : ℝ) / 100000, (p.2 : ℝ) / 100000⟩)

/-! ### Geo math (`distanceMeters`, `payloads.go`) -/

/-- `distanceMeters`: haversine great-circle distance in meters. -/
noncomputable def distanceMeters (a b : LatLng) : ℝ :=
  let lat1 := a.Lat * Real.pi / 180
  let lat2 := b.Lat * Real.pi / 180
  let dlat := (b.Lat - a.Lat) * Real.pi / 180
  let dlng := (b.Lng - a.Lng) * Real.pi / 180
  let sinDLat := Real.sin (dlat / 2)
  let sinDLng := Real.sin (dlng / 2)
  let value := sinDLat * sinDLat +
    Real.cos lat1 * Real.cos lat2 * sinDLng * sinDLng
  2 * earthRadiusMeters * Real.arcsin (Real.sqrt value)

/-- `samePoint`: both coordinate deltas below the `1e-6` epsilon. -/
def samePoint (a b : LatLng) : Prop :=
  |a.Lat - b.Lat| < 1 / 1000000 ∧ |a.Lng - b.Lng| < 1 / 1000000

/-! ### Cumulative distances and sampling (`payloads.go`) -/

/-- Tail of `cumulativeDistances`: given the previous point and the running
total, emit the cumulative distance at each remaining point. -/
noncomputable def cumulAux (prev : LatLng) (acc : ℝ) :
    List LatLng → List ℝ
  | [] => []
  | q :: rest =>
      (acc + distanceMeters prev q) :: cumulAux q (acc + distanceMeters prev q) rest

/-- `cumulativeDistances`: `distances[0] = 0`,
`distances[i] = distances[i-1] + distanceMeters(points[i-1], points[i])`. -/
noncomputable def cumulativeDistances : List LatLng → List ℝ
  | [] => []
  | p :: rest => 0 :: cumulAux p 0 rest

/-- Tail sum of `totalDistance`. -/
noncomputable def totalAux (prev : LatLng) : List LatLng → ℝ
  | [] => 0
  | q :: rest => distanceMeters prev q + totalAux q rest

/-- `totalDistance`: sum of consecutive pairwise distances (0 when fewer
than two points). -/
noncomputable def totalDistance : List LatLng → ℝ
  | [] => 0
  | [_] => 0
  | p :: q :: rest => totalAux p (q :: rest)

/-- The zero coordinate, standing in for Go's implicit zero value. -/
def zeroLatLng : LatLng := ⟨0, 0⟩

/-- `pointAtCumulative`: locate the point at cumulative distance `target`
along the path.  `sort.Search` is the least index whose cumulative distance
is at least `target` (the list length if none), here `List.findIdx`. -/
noncomputable def pointAtCumulative (points : List LatLng)
    (cumulative : List ℝ) (target : ℝ) : LatLng :=
  if target ≤ 0 then points.headD zeroLatLng
  else
    let total := cumulative.getLastD 0
    if total ≤ target then points.getLastD zeroLatLng
    else
      let index := cumulative.findIdx fun x => decide (target ≤ x)
      if index = 0 then points.headD zeroLatLng
      else
        let prev := points.getD (index - 1) zeroLatLng
        let next := points.getD index zeroLatLng
        let segment := cumulative.getD index 0 - cumulative.getD (index - 1) 0
        if segment ≤ 0 then next
        else
          let fraction := (target - cumulative.getD (index - 1) 0) / segment
          ⟨prev.Lat + (next.Lat - prev.Lat) * fraction,
           prev.Lng + (next.Lng - prev.Lng) * fraction⟩

/-- `pointAtDistance`: `pointAtCumulative` over the freshly built table. -/
noncomputable def pointAtDistance (points : List LatLng) (target : ℝ) :
    LatLng :=
  if points.isEmpty then zeroLatLng
  else pointAtCumulative points (cumulativeDistances points) target

/-- Tail of `uniqueWaypoints`: keep a point unless it coincides (within
epsilon) with the last point kept. -/
noncomputable def uniqAux (last : LatLng) : List LatLng → List LatLng
  | [] => []
  | p :: rest =>
      if samePoint last p then uniqAux last rest else p :: uniqAux p rest

/-- `uniqueWaypoints`: collapse adjacent near-duplicate points. -/
noncomputable def uniqueWaypoints : List LatLng → List LatLng
  | [] => []
  | p :: rest => p :: uniqAux p rest

/-- The sampling `for` loop of `sampleWaypoints`: iterate `k` more times
with loop counter `i`, appending `pointAtCumulative` at `spacing * i`
unless it duplicates the previously appended point.  `acc` holds the
points appended so far, most recent first. -/
noncomputable def sampleIter (points : List LatLng) (cumulative : List ℝ)
    (spacing : ℝ) : Nat → Nat → List LatLng → List LatLng
  | 0, _, acc => acc.reverse
  | k + 1, i, acc =>
      let point := pointAtCumulative points cumulative (spacing * (i : ℝ))
      let acc2 :=
        if acc = [] ∨ ¬ samePoint (acc.headD zeroLatLng) point
        then point :: acc else acc
      sampleIter points cumulative spacing k (i + 1) acc2

/-- `sampleWaypoints` (`payloads.go`). -/
noncomputable def sampleWaypoints (points : List LatLng)
    (maxWaypoints : Int) : List LatLng :=
  if points = [] ∨ maxWaypoints ≤ 0 then []
  else if points.length = 1 then [points.headD zeroLatLng]
  else if maxWaypoints = 1 then
    [pointAtDistance points (totalDistance points / 2)]
  else if (points.length : Int) ≤ maxWaypoints then uniqueWaypoints points
  else
    let cumulative := cumulativeDistances points
    let total := cumulative.getLastD 0
    if total = 0 then [points.headD zeroLatLng]
    else
      let spacing := total / ((maxWaypoints - 1 : Int) : ℝ)
      sampleIter points cumulative spacing maxWaypoints.toNat 0 []

/-! ### Route orchestration (`Route`, `payloads.go`)

The two network collaborators are passed in explicitly: `fetch` stands for
`doRequest` against the routes endpoint followed by the JSON unmarshal of
`routesResponse` (so it yields the list of encoded polylines, one per
returned route, or an error), and `search` stands for `c.Search`.  `RouteRun`
returns the Go result together with the ordered lists of fetch and search
invocations actually performed, so that "no network call" is expressible. -/

/-- `applyRouteDefaults` (`payloads.go`). -/
noncomputable def applyRouteDefaults (req : RouteRequest) : RouteRequest :=
  let mode0 := goToUpper (trimSpace req.Mode)
  { req with
    Query := trimSpace req.Query
    From := trimSpace req.From
    To := trimSpace req.To
    Mode := if mode0 = "" then "DRIVE" else mode0
    Limit := if req.Limit = 0 then defaultRouteLimit else req.Limit
    RadiusM := if req.RadiusM = 0 then defaultRouteRadiusM else req.RadiusM
    MaxWaypoints :=
      if req.MaxWaypoints = 0 then defaultRouteWaypoints else req.MaxWaypoints }

/-- `validateRouteRequest` (`payloads.go`): first violated rule wins. -/
noncomputable def validateRouteRequest (req : RouteRequest) :
    Option ValidationError :=
  if req.Query = "" then some ⟨"query", "required"⟩
  else if req.From = "" then some ⟨"from", "required"⟩
  else if req.To = "" then some ⟨"to", "required"⟩
  else if req.Limit < 1 ∨ maxSearchLimit < req.Limit then
    some ⟨"limit", "must be 1-20"⟩
  else if req.RadiusM ≤ 0 then some ⟨"radius_m", "must be > 0"⟩
  else if req.MaxWaypoints < 1 ∨ maxRouteWaypoints < req.MaxWaypoints then
    some ⟨"max_waypoints", "must be 1-20"⟩
  else if req.Mode ∈ travelModesList then none
  else some ⟨"mode", "must be DRIVE, WALK, BICYCLE, TWO_WHEELER, or TRANSIT"⟩

/-- The request data `computeRoutePolyline` sends to the routes endpoint. -/
structure FetchArgs where
  From : String
  To : String
  Mode : String
  Language : String
  Region : String

/-- The fetch arguments `Route` derives from a (defaulted) request. -/
def mkFetchArgs (req : RouteRequest) : FetchArgs :=
  ⟨req.From, req.To, req.Mode, req.Language, req.Region⟩

/-- The error value `errors.New("goplaces: no routes returned")`. -/
def noRoutesError : GoError := .generic "goplaces: no routes returned"

/-- The error value `errors.New("goplaces: empty route polyline")`. -/
def emptyRoutePolylineError : GoError :=
  .generic "goplaces: empty route polyline"

/-- The error value `errors.New("goplaces: no route waypoints")`. -/
def noWaypointsError : GoError := .generic "goplaces: no route waypoints"

/-- The tail of `computeRoutePolyline` after the collaborator call: require
at least one route, take the first route's encoded polyline, trim it and
require it non-blank. -/
def computePolylineFromRoutes (routes : List String) :
    Except GoError String :=
  match routes with
  | [] => .error noRoutesError
  | r :: _ =>
      let polyline := trimSpace r
      if polyline = "" then .error emptyRoutePolylineError else .ok polyline

/-- The search request `Route` issues for one sampled waypoint. -/
def mkSearchRequest (req : RouteRequest) (w : LatLng) : SearchRequest :=
  { Query := req.Query
    LocationBias := some ⟨w.Lat, w.Lng, req.RadiusM⟩
    Limit := req.Limit
    Language := req.Language
    Region := req.Region }

/-- The per-waypoint `for` loop of `Route`: sequentially search each
waypoint, aborting on the first failure.  Returns the Go result (the
aggregated waypoint list, or the first error) paired with the list of
search requests actually issued, in order.  `acc` holds the aggregated
entries so far, most recent first. -/
noncomputable def searchLoop
    (search : SearchRequest → Except GoError SearchResponse)
    (req : RouteRequest) :
    List LatLng → List RouteWaypoint →
    Except GoError (List RouteWaypoint) × List SearchRequest
  | [], acc => (.ok acc.reverse, [])
  | w :: rest, acc =>
      let sreq := mkSearchRequest req w
      match search sreq with
      | .error e => (.error e, [sreq])
      | .ok resp =>
          let next := searchLoop search req rest (⟨w, resp.Results⟩ :: acc)
          (next.1, sreq :: next.2)

/-- `Route` (`payloads.go`) with instrumented collaborators: apply defaults,
validate, fetch the encoded path, decode it, sample waypoints and run one
search per waypoint.  The second and third components record every fetch
and search call performed. -/
noncomputable def RouteRun
    (fetch : FetchArgs → Except GoError (List String))
    (search : SearchRequest → Except GoError SearchResponse)
    (req0 : RouteRequest) :
    Except GoError RouteResponse × List FetchArgs × List SearchRequest :=
  let req := applyRouteDefaults req0
  match validateRouteRequest req with
  | some e => (.error (.validation e), [], [])
  | none =>
      let fa := mkFetchArgs req
      match fetch fa with
      | .error e => (.error e, [fa], [])
      | .ok routes =>
          match computePolylineFromRoutes routes with
          | .error e => (.error e, [fa], [])
          | .ok polyline =>
              match decodePolyline polyline with
              | .error e => (.error e, [fa], [])
              | .ok points =>
                  let waypoints := sampleWaypoints points req.MaxWaypoints
                  if waypoints = [] then (.error noWaypointsError, [fa], [])
                  else
                    let loopOut := searchLoop search req waypoints []
                    match loopOut.1 with
                    | .error e => (.error e, [fa], loopOut.2)
                    | .ok ws => (.ok ⟨ws⟩, [fa], loopOut.2)

/-! ### Predicates used to state the claims -/

/-- A (defaulted) request violates at least one rule of
`validateRouteRequest`. -/
def violatesRouteValidation (req : RouteRequest) : Prop :=
  req.Query = "" ∨ req.From = "" ∨ req.To = "" ∨
  req.Limit < 1 ∨ maxSearchLimit < req.Limit ∨
  req.RadiusM ≤ 0 ∨
  req.MaxWaypoints < 1 ∨ maxRouteWaypoints < req.MaxWaypoints ∨
  req.Mode ∉ travelModesList

/-- The field `f` names a rule that `req` actually violates. -/
def offendsField (req : RouteRequest) (f : String) : Prop :=
  (f = "query" ∧ req.Query = "") ∨
  (f = "from" ∧ req.From = "") ∨
  (f = "to" ∧ req.To = "") ∨
  (f = "limit" ∧ (req.Limit < 1 ∨ maxSearchLimit < req.Limit)) ∨
  (f = "radius_m" ∧ req.RadiusM ≤ 0) ∨
  (f = "max_waypoints" ∧
    (req.MaxWaypoints < 1 ∨ maxRouteWaypoints < req.MaxWaypoints)) ∨
  (f = "mode" ∧ req.Mode ∉ travelModesList)

/-- The final byte of `cs` has the varint continuation bit `0x20` set
(`int(encoded[i]) - 63 ≥ 0x20`), so the input ends mid-varint. -/
def lastContinues (cs : List Char) : Prop :=
  ∃ c, cs.getLast? = some c ∧ 32 ≤ (c.toNat : Int) - 63

/-- The string ends mid-varint: its last byte keeps the continuation bit. -/
def lastByteContinues (s : String) : Prop :=
  lastContinues s.data

/-- Sum of the pairwise great-circle distances from point 0 to point `i`
(the spec's reading of a cumulative-distance-table entry). -/
noncomputable def pairwiseDistanceSum (points : List LatLng) (i : Nat) : ℝ :=
  (((List.range i).map fun k =>
    distanceMeters (points.getD k zeroLatLng)
      (points.getD (k + 1) zeroLatLng)).sum)

/-! ### Concrete fixtures used to instantiate the theorems -/

/-- A route request whose mode "FLY" is not a valid travel mode. -/
def reqFLY : RouteRequest :=
  ⟨"coffee", "Berlin", "Munich", "FLY", 0, 0, 0, "", ""⟩

/-- A route request that passes validation after defaulting. -/
def reqOK : RouteRequest :=
  ⟨"coffee", "Berlin", "Munich", "", 0, 0, 0, "", ""⟩

/-- A collaborator that is never expected to be reached. -/
def fetchNever : FetchArgs → Except GoError (List String) :=
  fun _ => .error (.generic "fetch should not run")

/-- A search collaborator that is never expected to be reached. -/
def searchNever : SearchRequest → Except GoError SearchResponse :=
  fun _ => .error (.generic "search should not run")

/-- A fetch collaborator returning one route whose encoded polyline decodes
to the two points (0,0) and (0,2). -/
def fetchDemo : FetchArgs → Except GoError (List String) :=
  fun _ => .ok ["???_seK"]

/-- A fetch collaborator returning one route with a blank polyline. -/
def fetchBlank : FetchArgs → Except GoError (List String) :=
  fun _ => .ok [""]

/-- A search collaborator that succeeds away from longitude 2 (returning
one place) and fails at longitude 2. -/
noncomputable def searchBoom : SearchRequest → Except GoError SearchResponse :=
  fun s =>
    match s.LocationBias with
    | some b =>
        if b.Lng = 2 then .error (.generic "search failed")
        else .ok ⟨[⟨"p1", "First"⟩]⟩
    | none => .ok ⟨[]⟩

/-! ### Lemmas about the polyline decoder -/

theorem readVarint_lastContinues {cs : List Char} {shift acc : Nat}
    {v : Nat} {rest : List Char}
    (h : readVarint cs shift acc = some (v, rest))
    (hl : lastContinues cs) : rest ≠ [] ∧ lastContinues rest := by
  induction cs generalizing shift acc with
  | nil => simp [readVarint] at h
  | cons c cs ih =>
    rw [readVarint] at h
    by_cases hb : ((c.toNat : Int) - 63) < 32
    · rw [if_pos hb] at h
      simp only [Option.some.injEq, Prod.mk.injEq] at h
      obtain ⟨hv, hrest⟩ := h
      subst hrest
      cases cs with
      | nil =>
        obtain ⟨d, hd, hge⟩ := hl
        simp [List.getLast?] at hd
        subst hd
        omega
      | cons c2 cs2 =>
        refine ⟨by simp, ?_⟩
        obtain ⟨d, hd, hge⟩ := hl
        rw [List.getLast?_cons_cons] at hd
        exact ⟨d, hd, hge⟩
    · rw [if_neg hb] at h
      cases cs with
      | nil => simp [readVarint] at h
      | cons c2 cs2 =>
        have hl2 : lastContinues (c2 :: cs2) := by
          obtain ⟨d, hd, hge⟩ := hl
          rw [List.getLast?_cons_cons] at hd
          exact ⟨d, hd, hge⟩
        exact ih h hl2

theorem decodeLoop_lastContinues_none :
    ∀ (fuel : Nat) (cs : List Char) (lat lng : Int)
      (acc : List (Int × Int)), cs ≠ [] → lastContinues cs →
      decodeLoop fuel cs lat lng acc = none := by
  intro fuel
  induction fuel with
  | zero =>
    intro cs lat lng acc hne _
    cases cs with
    | nil => exact absurd rfl hne
    | cons c cs => rfl
  | succ fuel ih =>
    intro cs lat lng acc hne hl
    cases cs with
    | nil => exact absurd rfl hne
    | cons c cs =>
      rw [decodeLoop]
      cases h1 : readVarint (c :: cs) 0 0 with
      | none => simp [h1]
      | some p1 =>
        obtain ⟨v1, rest1⟩ := p1
        obtain ⟨hne1, hl1⟩ := readVarint_lastContinues h1 hl
        cases h2 : readVarint rest1 0 0 with
        | none => simp [h2]
        | some p2 =>
          obtain ⟨v2, rest2⟩ := p2
          obtain ⟨hne2, hl2⟩ := readVarint_lastContinues h2 hl1
          simp only [h2]
          exact ih rest2 _ _ _ hne2 hl2

theorem decodeLoop_some_length :
    ∀ (fuel : Nat) (cs : List Char) (lat lng : Int)
      (acc out : List (Int × Int)),
      decodeLoop fuel cs lat lng acc = some out →
      acc.length ≤ out.length := by
  intro fuel
  induction fuel with
  | zero =>
    intro cs lat lng acc out h
    cases cs with
    | nil =>
      obtain rfl : acc.reverse = out := by simpa [decodeLoop] using h
      simp
    | cons c cs => simp [decodeLoop] at h
  | succ fuel ih =>
    intro cs lat lng acc out h
    cases cs with
    | nil =>
      obtain rfl : acc.reverse = out := by simpa [decodeLoop] using h
      simp
    | cons c cs =>
      rw [decodeLoop] at h
      cases h1 : readVarint (c :: cs) 0 0 with
      | none => simp only [h1] at h; exact absurd h (by simp)
      | some p1 =>
        obtain ⟨v1, rest1⟩ := p1
        simp only [h1] at h
        cases h2 : readVarint rest1 0 0 with
        | none => simp only [h2] at h; exact absurd h (by simp)
        | some p2 =>
          obtain ⟨v2, rest2⟩ := p2
          simp only [h2] at h
          have := ih rest2 _ _ _ _ h
          simp only [List.length_cons] at this
          omega

theorem trimSpace_of_nil {s : String} (h : s.data = []) :
    trimSpace s = "" := by
  cases s with
  | mk data =>
    simp only at h
    subst h
    rfl

theorem data_ne_nil_of_trim {s : String} (h : trimSpace s ≠ "") :
    s.data ≠ [] := fun hd => h (trimSpace_of_nil hd)

/-! ### Lemmas about `distanceMeters` -/

theorem distanceMeters_self (a : LatLng) : distanceMeters a a = 0 := by
  simp [distanceMeters]

theorem distanceMeters_comm (a b : LatLng) :
    distanceMeters a b = distanceMeters b a := by
  simp only [distanceMeters]
  have h1 : (a.Lat - b.Lat) * Real.pi / 180 / 2 =
      -((b.Lat - a.Lat) * Real.pi / 180 / 2) := by ring
  have h2 : (a.Lng - b.Lng) * Real.pi / 180 / 2 =
      -((b.Lng - a.Lng) * Real.pi / 180 / 2) := by ring
  rw [h1, h2, Real.sin_neg, Real.sin_neg]
  ring_nf

theorem distanceMeters_nonneg (a b : LatLng) : 0 ≤ distanceMeters a b := by
  simp only [distanceMeters]
  have h := Real.arcsin_nonneg.mpr (Real.sqrt_nonneg
    (Real.sin ((b.Lat - a.Lat) * Real.pi / 180 / 2) *
       Real.sin ((b.Lat - a.Lat) * Real.pi / 180 / 2) +
     Real.cos (a.Lat * Real.pi / 180) * Real.cos (b.Lat * Real.pi / 180) *
       Real.sin ((b.Lng - a.Lng) * Real.pi / 180 / 2) *
       Real.sin ((b.Lng - a.Lng) * Real.pi / 180 / 2)))
  have hre : (0:ℝ) ≤ 2 * earthRadiusMeters := by
    unfold earthRadiusMeters; norm_num
  exact mul_nonneg hre h

theorem distanceMeters_zero_lat (y₁ y₂ : ℝ) :
    distanceMeters ⟨0, y₁⟩ ⟨0, y₂⟩ =
    2 * earthRadiusMeters * Real.arcsin (Real.sqrt
      (Real.sin ((y₂ - y₁) * Real.pi / 180 / 2) *
       Real.sin ((y₂ - y₁) * Real.pi / 180 / 2))) := by
  simp [distanceMeters]

/-! ### Lemmas about `cumulativeDistances` -/

theorem pairwiseDistanceSum_zero (points : List LatLng) :
    pairwiseDistanceSum points 0 = 0 := by
  simp [pairwiseDistanceSum]

theorem pairwiseDistanceSum_cons (p q : LatLng) (l : List LatLng) (i : Nat) :
    pairwiseDistanceSum (p :: q :: l) (i + 1) =
    distanceMeters p q + pairwiseDistanceSum (q :: l) i := by
  simp only [pairwiseDistanceSum, List.range_succ_eq_map, List.map_cons,
    List.map_map, List.sum_cons, List.getD_cons_zero, List.getD_cons_succ]
  rfl

theorem pairwiseDistanceSum_succ (points : List LatLng) (i : Nat) :
    pairwiseDistanceSum points (i + 1) =
    pairwiseDistanceSum points i +
      distanceMeters (points.getD i zeroLatLng)
        (points.getD (i + 1) zeroLatLng) := by
  simp [pairwiseDistanceSum, List.range_succ]

theorem cumulAux_eq :
    ∀ (rest : List LatLng) (prev : LatLng) (acc : ℝ),
      cumulAux prev acc rest =
      (List.range rest.length).map
        (fun i => acc + pairwiseDistanceSum (prev :: rest) (i + 1)) := by
  intro rest
  induction rest with
  | nil => intro prev acc; simp [cumulAux]
  | cons q rest ih =>
    intro prev acc
    rw [cumulAux, ih]
    simp only [List.length_cons, List.range_succ_eq_map, List.map_cons,
      List.map_map]
    refine congrArg₂ List.cons ?_ ?_
    · rw [show (0:Nat) + 1 = 0 + 1 from rfl, pairwiseDistanceSum_cons,
        pairwiseDistanceSum_zero]
      ring
    · refine List.map_congr_left ?_
      intro i _
      simp only [Function.comp_apply, Nat.succ_eq_add_one]
      rw [show i + 1 + 1 = (i + 1) + 1 from rfl, pairwiseDistanceSum_cons]
      ring

theorem cumulativeDistances_eq (points : List LatLng) :
    cumulativeDistances points =
    (List.range points.length).map (pairwiseDistanceSum points) := by
  cases points with
  | nil => simp [cumulativeDistances]
  | cons p rest =>
    rw [cumulativeDistances, cumulAux_eq]
    simp only [List.length_cons, List.range_succ_eq_map, List.map_cons,
      List.map_map]
    refine congrArg₂ List.cons ?_ ?_
    · rw [pairwiseDistanceSum_zero]
    · refine List.map_congr_left ?_
      intro i _
      simp [Nat.succ_eq_add_one]

theorem cumulativeDistances_length (points : List LatLng) :
    (cumulativeDistances points).length = points.length := by
  rw [cumulativeDistances_eq]; simp

theorem cumulativeDistances_getD (points : List LatLng) (i : Nat)
    (h : i < points.length) :
    (cumulativeDistances points).getD i 0 = pairwiseDistanceSum points i := by
  rw [cumulativeDistances_eq]
  rw [List.getD_eq_getElem _ _ (by simpa using h)]
  simp

theorem distanceMeters_one_deg {y₁ y₂ : ℝ} (h : y₂ - y₁ = 1) :
    0 < distanceMeters ⟨0, y₁⟩ ⟨0, y₂⟩ := by
  rw [distanceMeters_zero_lat, h]
  have harg : (1:ℝ) * Real.pi / 180 / 2 = Real.pi / 360 := by ring
  rw [harg]
  have hs : 0 < Real.sin (Real.pi / 360) := by
    refine Real.sin_pos_of_pos_of_lt_pi (by positivity) ?_
    have := Real.pi_pos
    linarith
  rw [Real.sqrt_mul_self hs.le]
  have hre : (0:ℝ) < 2 * earthRadiusMeters := by
    unfold earthRadiusMeters; norm_num
  exact mul_pos hre (Real.arcsin_pos.mpr hs)

/-! ### Lemmas about validation -/

theorem validate_offends (req : RouteRequest)
    (h : violatesRouteValidation req) :
    ∃ f m, validateRouteRequest req = some ⟨f, m⟩ ∧ offendsField req f := by
  unfold validateRouteRequest
  split_ifs with h1 h2 h3 h4 h5 h6 h7
  · exact ⟨"query", "required", rfl, Or.inl ⟨rfl, h1⟩⟩
  · exact ⟨"from", "required", rfl, Or.inr (Or.inl ⟨rfl, h2⟩)⟩
  · exact ⟨"to", "required", rfl, Or.inr (Or.inr (Or.inl ⟨rfl, h3⟩))⟩
  · exact ⟨"limit", "must be 1-20", rfl,
      Or.inr (Or.inr (Or.inr (Or.inl ⟨rfl, h4⟩)))⟩
  · exact ⟨"radius_m", "must be > 0", rfl,
      Or.inr (Or.inr (Or.inr (Or.inr (Or.inl ⟨rfl, h5⟩))))⟩
  · exact ⟨"max_waypoints", "must be 1-20", rfl,
      Or.inr (Or.inr (Or.inr (Or.inr (Or.inr (Or.inl ⟨rfl, h6⟩)))))⟩
  · exfalso
    rcases h with h | h | h | h | h | h | h | h | h
    · exact h1 h
    · exact h2 h
    · exact h3 h
    · exact h4 (Or.inl h)
    · exact h4 (Or.inr h)
    · exact h5 h
    · exact h6 (Or.inl h)
    · exact h6 (Or.inr h)
    · exact h h7
  · exact ⟨"mode", "must be DRIVE, WALK, BICYCLE, TWO_WHEELER, or TRANSIT",
      rfl, Or.inr (Or.inr (Or.inr (Or.inr (Or.inr (Or.inr ⟨rfl, h7⟩)))))⟩

theorem validate_none_bounds (req : RouteRequest)
    (h : validateRouteRequest req = none) :
    1 ≤ req.MaxWaypoints ∧ req.MaxWaypoints ≤ maxRouteWaypoints := by
  unfold validateRouteRequest at h
  split_ifs at h with h1 h2 h3 h4 h5 h6 h7
  push_neg at h6
  omega

/-! ### Length lemmas about the waypoint sampler -/

theorem uniqAux_length_le (l : List LatLng) :
    ∀ last : LatLng, (uniqAux last l).length ≤ l.length := by
  induction l with
  | nil => intro last; simp [uniqAux]
  | cons p rest ih =>
    intro last
    rw [uniqAux]
    by_cases hs : samePoint last p
    · rw [if_pos hs]
      exact le_trans (ih last) (by simp)
    · rw [if_neg hs]
      simpa using ih p

theorem uniqueWaypoints_length_le (points : List LatLng) :
    (uniqueWaypoints points).length ≤ points.length := by
  cases points with
  | nil => simp [uniqueWaypoints]
  | cons p rest =>
    rw [uniqueWaypoints]
    simpa using uniqAux_length_le rest p

theorem uniqueWaypoints_ne_nil {points : List LatLng} (h : points ≠ []) :
    uniqueWaypoints points ≠ [] := by
  obtain ⟨p, rest, rfl⟩ := List.exists_cons_of_ne_nil h
  rw [uniqueWaypoints]
  simp

theorem sampleIter_length_le (points : List LatLng) (cum : List ℝ)
    (spacing : ℝ) :
    ∀ (k i : Nat) (acc : List LatLng),
      (sampleIter points cum spacing k i acc).length ≤ k + acc.length := by
  intro k
  induction k with
  | zero => intro i acc; simp [sampleIter]
  | succ k ih =>
    intro i acc
    simp only [sampleIter]
    by_cases hc : acc = [] ∨
        ¬ samePoint (acc.headD zeroLatLng)
          (pointAtCumulative points cum (spacing * (i : ℝ)))
    · rw [if_pos hc]
      have := ih (i + 1)
        (pointAtCumulative points cum (spacing * (i : ℝ)) :: acc)
      simp only [List.length_cons] at this
      omega
    · rw [if_neg hc]
      have := ih (i + 1) acc
      omega

theorem sampleIter_length_ge (points : List LatLng) (cum : List ℝ)
    (spacing : ℝ) :
    ∀ (k i : Nat) (acc : List LatLng),
      acc.length ≤ (sampleIter points cum spacing k i acc).length := by
  intro k
  induction k with
  | zero => intro i acc; simp [sampleIter]
  | succ k ih =>
    intro i acc
    simp only [sampleIter]
    by_cases hc : acc = [] ∨
        ¬ samePoint (acc.headD zeroLatLng)
          (pointAtCumulative points cum (spacing * (i : ℝ)))
    · rw [if_pos hc]
      have := ih (i + 1)
        (pointAtCumulative points cum (spacing * (i : ℝ)) :: acc)
      simp only [List.length_cons] at this
      omega
    · rw [if_neg hc]
      exact ih (i + 1) acc

theorem sampleWaypoints_length_le (points : List LatLng) (n : Int) :
    ((sampleWaypoints points n).length : Int) ≤ max n 0 := by
  simp only [sampleWaypoints]
  split_ifs with h1 h2 h3 h4 h5
  · simp
  · push_neg at h1
    simp only [List.length_cons, List.length_nil]
    omega
  · push_neg at h1
    simp only [List.length_cons, List.length_nil]
    omega
  · have hu := uniqueWaypoints_length_le points
    push_neg at h1
    omega
  · push_neg at h1
    simp only [List.length_cons, List.length_nil]
    omega
  · have hl := sampleIter_length_le points (cumulativeDistances points)
      ((cumulativeDistances points).getLastD 0 / ((n - 1 : Int) : ℝ))
      n.toNat 0 []
    push_neg at h1
    simp only [List.length_nil, Nat.add_zero] at hl
    omega

theorem sampleWaypoints_length_pos (points : List LatLng) (n : Int)
    (hne : points ≠ []) (hn : 1 ≤ n) :
    1 ≤ (sampleWaypoints points n).length := by
  simp only [sampleWaypoints]
  split_ifs with h1 h2 h3 h4 h5
  · rcases h1 with h | h
    · exact absurd h hne
    · omega
  · simp
  · simp
  · have := uniqueWaypoints_ne_nil hne
    exact List.length_pos.mpr this
  · simp
  · have hk : n.toNat = (n.toNat - 1) + 1 := by omega
    rw [hk]
    simp only [sampleIter]
    rw [if_pos (Or.inl trivial)]
    refine le_trans ?_ (sampleIter_length_ge _ _ _ (n.toNat - 1) (0 + 1) _)
    simp

/-! ## Claim theorems -/

/-- C1: every request that, after defaulting, violates a validation rule
makes `Route` return a `ValidationError` naming an offending field, with no
fetch and no search call performed. -/
theorem route_invalid_request_no_network
    (fetch : FetchArgs → Except GoError (List String))
    (search : SearchRequest → Except GoError SearchResponse)
    (req : RouteRequest)
    (h : violatesRouteValidation (applyRouteDefaults req)) :
    ∃ f m, RouteRun fetch search req =
        (.error (.validation ⟨f, m⟩), [], []) ∧
      offendsField (applyRouteDefaults req) f := by
  obtain ⟨f, m, hv, hoff⟩ := validate_offends _ h
  exact ⟨f, m, by simp only [RouteRun, hv], hoff⟩

/-- C1 witness: mode "FLY" fails validation with no network call. -/
theorem route_invalid_request_no_network_witness :
    ∃ f m, RouteRun fetchNever searchNever reqFLY =
        (.error (.validation ⟨f, m⟩), [], []) ∧
      offendsField (applyRouteDefaults reqFLY) f := by
  refine route_invalid_request_no_network fetchNever searchNever reqFLY ?_
  have hm : (applyRouteDefaults reqFLY).Mode = "FLY" := by decide
  unfold violatesRouteValidation
  refine Or.inr (Or.inr (Or.inr (Or.inr (Or.inr (Or.inr (Or.inr
    (Or.inr ?_)))))))
  rw [hm]
  decide

/-- C2: decoding the empty string fails with the empty-polyline error, and
decoding any non-blank string whose final byte keeps the varint
continuation bit (i.e. that ends mid-varint) fails with the
invalid-polyline error; the `Except` result carries no points in either
case. -/
theorem decode_failure_modes :
    decodePolyline "" = .error emptyPolylineError ∧
    (∀ s : String, trimSpace s ≠ "" → lastByteContinues s →
      decodePolyline s = .error invalidPolylineError) := by
  constructor
  · unfold decodePolyline
    rw [if_pos (by decide)]
  · intro s hts hlast
    unfold decodePolyline
    rw [if_neg hts,
      decodeLoop_lastContinues_none s.data.length s.data 0 0 []
        (data_ne_nil_of_trim hts) hlast]

/-- C2 witness: the one-byte string with the continuation bit set fails
with the invalid-polyline error. -/
theorem decode_failure_modes_witness :
    decodePolyline "_" = .error invalidPolylineError :=
  decode_failure_modes.2 "_" (by decide) ⟨'_', by decide, by decide⟩

/-- C3 counterexample: at `maxWaypoints = -1` the sampler returns the empty
list, which has more than `-1` elements, so the claim read over all
integers fails. -/
theorem sample_length_counterexample :
    ¬ (((sampleWaypoints [zeroLatLng] (-1)).length : Int) ≤ -1) := by
  have hz : sampleWaypoints [zeroLatLng] (-1) = [] := by
    unfold sampleWaypoints
    rw [if_pos (Or.inr (by norm_num))]
  rw [hz]
  norm_num

/-- C3 (amended): `sampleWaypoints points n` returns at most `max n 0`
points, and at least one point whenever `points` is non-empty and
`n ≥ 1`. -/
theorem sample_length_bounds (points : List LatLng) (n : Int) :
    ((sampleWaypoints points n).length : Int) ≤ max n 0 ∧
    (points ≠ [] → 1 ≤ n → 1 ≤ (sampleWaypoints points n).length) :=
  ⟨sampleWaypoints_length_le points n,
   fun hne hn => sampleWaypoints_length_pos points n hne hn⟩

/-- C3 witness: both bounds at a two-point list with `n = 1`. -/
theorem sample_length_bounds_witness :
    ((sampleWaypoints [zeroLatLng, ⟨0, 2⟩] 1).length : Int) ≤ max 1 0 ∧
    1 ≤ (sampleWaypoints [zeroLatLng, ⟨0, 2⟩] 1).length :=
  ⟨(sample_length_bounds [zeroLatLng, ⟨0, 2⟩] 1).1,
   (sample_length_bounds [zeroLatLng, ⟨0, 2⟩] 1).2 (by simp) (by norm_num)⟩

/-- C6: the reference polyline decodes to exactly three coordinates, the
first being latitude 38.5 and longitude -120.2. -/
theorem decode_reference_polyline :
    decodePolyline "_p~iF~ps|U_ulLnnqC_mqNvxq`@" =
      .ok [⟨38.5, -120.2⟩, ⟨40.7, -120.95⟩, ⟨43.252, -126.453⟩] := by
  unfold decodePolyline
  rw [if_neg (by decide)]
  have hd : decodeLoop ("_p~iF~ps|U_ulLnnqC_mqNvxq`@" : String).data.length
      ("_p~iF~ps|U_ulLnnqC_mqNvxq`@" : String).data 0 0 [] =
      some [(3850000, -12020000), (4070000, -12095000),
        (4325200, -12645300)] := by
    decide
  rw [hd]
  simp only [List.map_cons, List.map_nil, LatLng.mk.injEq]
  norm_num

/-- C9: the haversine distance is zero on equal points, symmetric, and
non-negative for all coordinates. -/
theorem distance_zero_symm_nonneg :
    (∀ a : LatLng, distanceMeters a a = 0) ∧
    (∀ a b : LatLng, distanceMeters a b = distanceMeters b a) ∧
    (∀ a b : LatLng, 0 ≤ distanceMeters a b) :=
  ⟨distanceMeters_self, distanceMeters_comm, distanceMeters_nonneg⟩

/-! ### Concrete evaluation lemmas for the fixtures -/

theorem not_samePoint_02 : ¬ samePoint (⟨0, 0⟩ : LatLng) ⟨0, 2⟩ := by
  intro h
  have h2 : |(0:ℝ) - 2| < 1 / 1000000 := h.2
  rw [zero_sub, abs_neg, abs_two] at h2
  norm_num at h2

theorem reqOK_defaults_Query : (applyRouteDefaults reqOK).Query = "coffee" := by
  decide

theorem reqOK_defaults_From : (applyRouteDefaults reqOK).From = "Berlin" := by
  decide

theorem reqOK_defaults_To : (applyRouteDefaults reqOK).To = "Munich" := by
  decide

theorem reqOK_defaults_Mode : (applyRouteDefaults reqOK).Mode = "DRIVE" := by
  decide

theorem reqOK_defaults_Limit : (applyRouteDefaults reqOK).Limit = 5 := by
  decide

theorem reqOK_defaults_MaxWaypoints :
    (applyRouteDefaults reqOK).MaxWaypoints = 5 := by
  decide

theorem reqOK_defaults_RadiusM : (applyRouteDefaults reqOK).RadiusM = 1000 := by
  simp [applyRouteDefaults, reqOK, defaultRouteRadiusM]

theorem validate_reqOK :
    validateRouteRequest (applyRouteDefaults reqOK) = none := by
  unfold validateRouteRequest
  rw [reqOK_defaults_Query, reqOK_defaults_From, reqOK_defaults_To,
    reqOK_defaults_Mode, reqOK_defaults_Limit, reqOK_defaults_MaxWaypoints,
    reqOK_defaults_RadiusM]
  rw [if_neg (by decide), if_neg (by decide), if_neg (by decide),
    if_neg (by decide), if_neg (by norm_num), if_neg (by decide),
    if_pos (by decide)]

theorem decode_demo : decodePolyline "???_seK" = .ok [⟨0, 0⟩, ⟨0, 2⟩] := by
  unfold decodePolyline
  rw [if_neg (by decide)]
  have hd : decodeLoop ("???_seK" : String).data.length
      ("???_seK" : String).data 0 0 [] = some [(0, 0), (0, 200000)] := by
    decide
  rw [hd]
  simp only [List.map_cons, List.map_nil, LatLng.mk.injEq]
  norm_num

theorem sample_demo :
    sampleWaypoints [⟨0, 0⟩, ⟨0, 2⟩] 5 = [⟨0, 0⟩, ⟨0, 2⟩] := by
  unfold sampleWaypoints
  rw [if_neg (by push_neg; exact ⟨by simp, by norm_num⟩), if_neg (by simp),
    if_neg (by norm_num), if_pos (by norm_num),
    uniqueWaypoints, uniqAux, if_neg not_samePoint_02, uniqAux]

/-- C4: when the pipeline reaches the search loop with two sampled
waypoints, the first search succeeding and the second failing, `Route`
aborts with the second call's error: the result carries no waypoint data
(the first call's response is discarded) while the call log shows both
searches were issued. -/
theorem route_search_failfast
    (fetch : FetchArgs → Except GoError (List String))
    (search : SearchRequest → Except GoError SearchResponse)
    (req : RouteRequest) (routes : List String) (poly : String)
    (points : List LatLng) (w1 w2 : LatLng) (r1 : SearchResponse)
    (e : GoError)
    (hv : validateRouteRequest (applyRouteDefaults req) = none)
    (hf : fetch (mkFetchArgs (applyRouteDefaults req)) = .ok routes)
    (hp : computePolylineFromRoutes routes = .ok poly)
    (hd : decodePolyline poly = .ok points)
    (hw : sampleWaypoints points (applyRouteDefaults req).MaxWaypoints =
      [w1, w2])
    (h1 : search (mkSearchRequest (applyRouteDefaults req) w1) = .ok r1)
    (h2 : search (mkSearchRequest (applyRouteDefaults req) w2) = .error e) :
    RouteRun fetch search req =
      (.error e, [mkFetchArgs (applyRouteDefaults req)],
       [mkSearchRequest (applyRouteDefaults req) w1,
        mkSearchRequest (applyRouteDefaults req) w2]) := by
  simp only [RouteRun, hv, hf, hp, hd, hw]
  rw [if_neg (by simp)]
  simp only [searchLoop, h1, h2]

/-- C4 witness: a route sampled to waypoints (0,0) and (0,2), with the
search collaborator succeeding at the first and failing at the second,
surfaces the failure and returns no partial results. -/
theorem route_search_failfast_witness :
    RouteRun fetchDemo searchBoom reqOK =
      (.error (.generic "search failed"),
       [mkFetchArgs (applyRouteDefaults reqOK)],
       [mkSearchRequest (applyRouteDefaults reqOK) ⟨0, 0⟩,
        mkSearchRequest (applyRouteDefaults reqOK) ⟨0, 2⟩]) := by
  refine route_search_failfast fetchDemo searchBoom reqOK ["???_seK"]
    "???_seK" [⟨0, 0⟩, ⟨0, 2⟩] ⟨0, 0⟩ ⟨0, 2⟩ ⟨[⟨"p1", "First"⟩]⟩
    (.generic "search failed") validate_reqOK rfl rfl decode_demo ?_ ?_ ?_
  · rw [reqOK_defaults_MaxWaypoints]
    exact sample_demo
  · simp only [searchBoom, mkSearchRequest]
    rw [if_neg (by norm_num)]
  · simp only [searchBoom, mkSearchRequest]
    rw [if_pos trivial]

/-- C5: with a request that passes validation, if the routing collaborator
returns zero routes or a first route whose trimmed polyline is blank,
`Route` fails with the corresponding route-not-found error having issued
the fetch but zero searches; and the result only ever depends on the first
returned route. -/
theorem route_not_found
    (fetch : FetchArgs → Except GoError (List String))
    (search : SearchRequest → Except GoError SearchResponse)
    (req : RouteRequest) (routes : List String)
    (hv : validateRouteRequest (applyRouteDefaults req) = none)
    (hf : fetch (mkFetchArgs (applyRouteDefaults req)) = .ok routes)
    (hempty : routes = [] ∨ trimSpace (routes.headD "") = "") :
    (RouteRun fetch search req =
        (.error noRoutesError, [mkFetchArgs (applyRouteDefaults req)], []) ∨
     RouteRun fetch search req =
        (.error emptyRoutePolylineError,
         [mkFetchArgs (applyRouteDefaults req)], [])) ∧
    (∀ (fetch2 : FetchArgs → Except GoError (List String)) (r : String)
       (t t2 : List String), routes = r :: t →
       fetch2 (mkFetchArgs (applyRouteDefaults req)) = .ok (r :: t2) →
       RouteRun fetch2 search req = RouteRun fetch search req) := by
  constructor
  · cases routes with
    | nil =>
      left
      simp only [RouteRun, hv, hf, computePolylineFromRoutes]
    | cons r t =>
      right
      have hb : trimSpace r = "" := by
        rcases hempty with h | h
        · simp at h
        · simpa using h
      simp only [RouteRun, hv, hf, computePolylineFromRoutes]
      rw [if_pos hb]
  · intro fetch2 r t t2 hr hf2
    subst hr
    have hcp : computePolylineFromRoutes (r :: t2) =
        computePolylineFromRoutes (r :: t) := rfl
    simp only [RouteRun, hv, hf, hf2, hcp]

/-- C5 witness: a single route with an empty polyline string yields a
route-not-found failure and zero search calls. -/
theorem route_not_found_witness :
    RouteRun fetchBlank searchNever reqOK =
        (.error noRoutesError, [mkFetchArgs (applyRouteDefaults reqOK)], []) ∨
    RouteRun fetchBlank searchNever reqOK =
        (.error emptyRoutePolylineError,
         [mkFetchArgs (applyRouteDefaults reqOK)], []) :=
  (route_not_found fetchBlank searchNever reqOK [""] validate_reqOK rfl
    (Or.inr (by decide))).1

/-- C8: for coordinate lists with latitudes in [-90, 90], the cumulative
distance table has the same length as the input, starts at 0, its entry
`i` equals the sum of the pairwise great-circle distances from point 0 to
point `i`, and it is monotonically non-decreasing. -/
theorem cumulative_table_props (points : List LatLng)
    (h : ∀ p ∈ points, -90 ≤ p.Lat ∧ p.Lat ≤ 90) :
    (cumulativeDistances points).length = points.length ∧
    (points ≠ [] → (cumulativeDistances points).getD 0 0 = 0) ∧
    (∀ i, i < points.length →
      (cumulativeDistances points).getD i 0 = pairwiseDistanceSum points i) ∧
    (∀ i, i + 1 < points.length →
      (cumulativeDistances points).getD i 0 ≤
        (cumulativeDistances points).getD (i + 1) 0) := by
  refine ⟨cumulativeDistances_length points, ?_, ?_, ?_⟩
  · intro hne
    rw [cumulativeDistances_getD points 0 (List.length_pos.mpr hne),
      pairwiseDistanceSum_zero]
  · exact fun i hi => cumulativeDistances_getD points i hi
  · intro i hi
    rw [cumulativeDistances_getD points i (by omega),
      cumulativeDistances_getD points (i + 1) hi, pairwiseDistanceSum_succ]
    have := distanceMeters_nonneg (points.getD i zeroLatLng)
      (points.getD (i + 1) zeroLatLng)
    linarith

/-- C8 witness: the table of a concrete two-point path starts at 0. -/
theorem cumulative_table_props_witness :
    (cumulativeDistances [zeroLatLng, ⟨10, 20⟩]).getD 0 0 = 0 :=
  (cumulative_table_props [zeroLatLng, ⟨10, 20⟩] (by
    intro p hp
    rcases List.mem_cons.mp hp with rfl | hp2
    · constructor <;> norm_num [zeroLatLng]
    · rcases List.mem_cons.mp hp2 with rfl | hp3
      · constructor <;> norm_num
      · simp at hp3)).2.1 (by simp)

/-- C10: a successful polyline decode always yields at least one point, and
for any request that passes validation (so `MaxWaypoints ≥ 1`), sampling a
successfully decoded polyline yields at least one waypoint; hence the
`goplaces: no route waypoints` branch of `Route` is unreachable. -/
theorem decode_success_waypoints_nonempty :
    (∀ (s : String) (pts : List LatLng),
      decodePolyline s = .ok pts → pts ≠ []) ∧
    (∀ (req : RouteRequest) (s : String) (pts : List LatLng),
      validateRouteRequest (applyRouteDefaults req) = none →
      decodePolyline s = .ok pts →
      sampleWaypoints pts (applyRouteDefaults req).MaxWaypoints ≠ []) := by
  have hmain : ∀ (s : String) (pts : List LatLng),
      decodePolyline s = .ok pts → pts ≠ [] := by
    intro s pts h
    unfold decodePolyline at h
    by_cases ht : trimSpace s = ""
    · rw [if_pos ht] at h
      exact absurd h (by simp)
    · rw [if_neg ht] at h
      obtain ⟨c, cs, hdata⟩ :=
        List.exists_cons_of_ne_nil (data_ne_nil_of_trim ht)
      cases hdl : decodeLoop s.data.length s.data 0 0 [] with
      | none => simp only [hdl] at h; exact absurd h (by simp)
      | some ptsInt =>
        simp only [hdl] at h
        have hlen : 1 ≤ ptsInt.length := by
          rw [hdata, List.length_cons, decodeLoop] at hdl
          cases hv1 : readVarint (c :: cs) 0 0 with
          | none => simp only [hv1] at hdl; exact absurd hdl (by simp)
          | some p1 =>
            obtain ⟨v1, rest1⟩ := p1
            simp only [hv1] at hdl
            cases hv2 : readVarint rest1 0 0 with
            | none => simp only [hv2] at hdl; exact absurd hdl (by simp)
            | some p2 =>
              obtain ⟨v2, rest2⟩ := p2
              simp only [hv2] at hdl
              have := decodeLoop_some_length _ _ _ _ _ _ hdl
              simpa using this
        obtain rfl : pts = ptsInt.map
            (fun p => (⟨(p.1 : ℝ) / 100000, (p.2 : ℝ) / 100000⟩ : LatLng)) :=
          by simpa using h.symm
        intro hnil
        rw [List.map_eq_nil_iff] at hnil
        rw [hnil] at hlen
        simp at hlen
  refine ⟨hmain, ?_⟩
  intro req s pts hv hd
  have hb := (validate_none_bounds _ hv).1
  have hpos := sampleWaypoints_length_pos pts _ (hmain s pts hd) hb
  intro hnil
  rw [hnil] at hpos
  simp at hpos

/-- C10 witness: a concrete decoded polyline sampled under the defaulted
valid request yields a non-empty waypoint list. -/
theorem decode_success_waypoints_nonempty_witness :
    sampleWaypoints [⟨0, 0⟩, ⟨0, 2⟩]
      (applyRouteDefaults reqOK).MaxWaypoints ≠ [] :=
  decode_success_waypoints_nonempty.2 reqOK "???_seK" [⟨0, 0⟩, ⟨0, 2⟩]
    validate_reqOK decode_demo

/-- C7: sampling the path (0,0), (0,1), (0,2) down to two waypoints keeps
exactly the two endpoints, in order. -/
theorem sample_endpoints_of_three :
    sampleWaypoints [⟨0, 0⟩, ⟨0, 1⟩, ⟨0, 2⟩] 2 = [⟨0, 0⟩, ⟨0, 2⟩] := by
  have hd1 : 0 < distanceMeters ⟨0, 0⟩ ⟨0, 1⟩ :=
    distanceMeters_one_deg (by norm_num)
  have hd2 : 0 < distanceMeters ⟨0, 1⟩ ⟨0, 2⟩ :=
    distanceMeters_one_deg (by norm_num)
  have hcum : cumulativeDistances [⟨0, 0⟩, ⟨0, 1⟩, ⟨0, 2⟩] =
      [0, distanceMeters ⟨0, 0⟩ ⟨0, 1⟩,
       distanceMeters ⟨0, 0⟩ ⟨0, 1⟩ + distanceMeters ⟨0, 1⟩ ⟨0, 2⟩] := by
    simp [cumulativeDistances, cumulAux]
  have hlast : List.getLastD
      [(0:ℝ), distanceMeters ⟨0, 0⟩ ⟨0, 1⟩,
       distanceMeters ⟨0, 0⟩ ⟨0, 1⟩ + distanceMeters ⟨0, 1⟩ ⟨0, 2⟩] 0 =
      distanceMeters ⟨0, 0⟩ ⟨0, 1⟩ + distanceMeters ⟨0, 1⟩ ⟨0, 2⟩ := rfl
  have hpt0 : pointAtCumulative [⟨0, 0⟩, ⟨0, 1⟩, ⟨0, 2⟩]
      [0, distanceMeters ⟨0, 0⟩ ⟨0, 1⟩,
       distanceMeters ⟨0, 0⟩ ⟨0, 1⟩ + distanceMeters ⟨0, 1⟩ ⟨0, 2⟩] 0 =
      ⟨0, 0⟩ := by
    unfold pointAtCumulative
    rw [if_pos le_rfl]
    rfl
  have hpt1 : pointAtCumulative [⟨0, 0⟩, ⟨0, 1⟩, ⟨0, 2⟩]
      [0, distanceMeters ⟨0, 0⟩ ⟨0, 1⟩,
       distanceMeters ⟨0, 0⟩ ⟨0, 1⟩ + distanceMeters ⟨0, 1⟩ ⟨0, 2⟩]
      (distanceMeters ⟨0, 0⟩ ⟨0, 1⟩ + distanceMeters ⟨0, 1⟩ ⟨0, 2⟩) =
      ⟨0, 2⟩ := by
    unfold pointAtCumulative
    rw [if_neg (by linarith)]
    simp only [hlast]
    rw [if_pos le_rfl]
    rfl
  unfold sampleWaypoints
  rw [if_neg (by push_neg; exact ⟨by simp, by norm_num⟩), if_neg (by simp),
    if_neg (by norm_num), if_neg (by norm_num)]
  simp only [hcum, hlast]
  rw [if_neg (by linarith : ¬(distanceMeters ⟨0, 0⟩ ⟨0, 1⟩ +
    distanceMeters ⟨0, 1⟩ ⟨0, 2⟩ = 0))]
  have hsp : (distanceMeters ⟨0, 0⟩ ⟨0, 1⟩ +
      distanceMeters ⟨0, 1⟩ ⟨0, 2⟩) / ((2 - 1 : Int) : ℝ) =
      distanceMeters ⟨0, 0⟩ ⟨0, 1⟩ + distanceMeters ⟨0, 1⟩ ⟨0, 2⟩ := by
    norm_num
  rw [hsp, show (2 : Int).toNat = 2 from rfl]
  simp only [sampleIter, Nat.cast_zero, Nat.cast_one, mul_zero, mul_one,
    zero_add, hpt0, hpt1]
  rw [if_pos (show True ∨ ¬samePoint ([].headD zeroLatLng) (⟨0, 0⟩ : LatLng)
    from Or.inl trivial)]
  rw [if_pos (show [(⟨0, 0⟩ : LatLng)] = [] ∨
    ¬samePoint ([(⟨0, 0⟩ : LatLng)].headD zeroLatLng) ⟨0, 2⟩
    from Or.inr not_samePoint_02)]
  rfl
